import Mathlib

/-!
Shallow embedding of the client-side data/relationship logic of the
instant-evernote-clone repository.

The application is a thin client over a hosted real-time database
(InstantDB).  Client code never mutates local state directly: every
operation builds a list of transaction chunks (`db.tx.…` builder calls)
and submits each batch through one `db.transact(…)` remote call.  We
model a transaction chunk as a `TxOp`, one `db.transact` call as a
`List TxOp`, and a client operation as the list of `db.transact` calls
it issues, in order (`List (List TxOp)`).  The server-side effect of the
ops, as used by this client, is given by `applyOp` on a `DBState`
mirroring the declared schema (notes, notebooks, tags and their links).

Records carry the fields declared in `instant.schema` / used by the
client: notes have title, content, createdAt, updatedAt, isFavorite, a
creator link, an optional notebook link and a set of tag links (stored
here as the linked ids).
-/

namespace EvernoteClone

/-- A `notes` record together with its relation links (`creator`,
`notebook`, `tags`), links stored as the linked record ids. -/
structure NoteRec where
  id : String
  title : String
  content : String
  createdAt : String
  updatedAt : String
  isFavorite : Bool
  creator : Option String
  notebook : Option String
  tags : List String
deriving Repr, DecidableEq

/-- A `notebooks` record with its `creator` link. -/
structure NotebookRec where
  id : String
  name : String
  description : String
  createdAt : String
  creator : Option String
deriving Repr, DecidableEq

/-- A `tags` record with its `creator` link. -/
structure TagRec where
  id : String
  name : String
  createdAt : String
  creator : Option String
deriving Repr, DecidableEq

/-- The dataset visible to the signed-in user (the live query result of
`NoteProvider` mirrors exactly this: the user's notes, notebooks, tags). -/
structure DBState where
  notes : List NoteRec
  notebooks : List NotebookRec
  tags : List TagRec
deriving Repr, DecidableEq

/-- Payload of a `db.tx.notes[id].update({…})` chunk: only the fields
present in the JS object are set. -/
structure NotePatch where
  title : Option String := none
  content : Option String := none
  createdAt : Option String := none
  updatedAt : Option String := none
  isFavorite : Option Bool := none
deriving Repr, DecidableEq

/-- Payload of a `db.tx.notebooks[id].update({…})` chunk. -/
structure NotebookPatch where
  name : Option String := none
  description : Option String := none
  createdAt : Option String := none
deriving Repr, DecidableEq

/-- One transaction chunk, i.e. one `db.tx.…` builder call as issued by
this client (update / link / unlink / delete on the three record types). -/
inductive TxOp where
  | noteUpdate (noteId : String) (p : NotePatch)
  | noteLinkCreator (noteId userId : String)
  | noteLinkNotebook (noteId notebookId : String)
  | noteLinkTags (noteId : String) (tagIds : List String)
  | noteUnlinkTag (noteId tagId : String)
  | notebookUpdate (notebookId : String) (p : NotebookPatch)
  | notebookLinkCreator (notebookId userId : String)
  | notebookLinkNote (notebookId noteId : String)
  | notebookUnlinkNote (notebookId noteId : String)
  | notebookDelete (notebookId : String)
  | tagDelete (tagId : String)
deriving Repr, DecidableEq

/-- Merge a patch into an existing note: fields present in the patch are
overwritten, absent fields keep their value. -/
def NotePatch.applyTo (p : NotePatch) (n : NoteRec) : NoteRec :=
  { n with
    title := p.title.getD n.title
    content := p.content.getD n.content
    createdAt := p.createdAt.getD n.createdAt
    updatedAt := p.updatedAt.getD n.updatedAt
    isFavorite := p.isFavorite.getD n.isFavorite }

/-- Merge a patch into an existing notebook. -/
def NotebookPatch.applyTo (p : NotebookPatch) (b : NotebookRec) : NotebookRec :=
  { b with
    name := p.name.getD b.name
    description := p.description.getD b.description
    createdAt := p.createdAt.getD b.createdAt }

/-- A brand-new note record before its first update chunk (InstantDB
`update` is an upsert: on an unknown id it creates the record). -/
def freshNote (noteId : String) : NoteRec :=
  ⟨noteId, "", "", "", "", false, none, none, []⟩

/-- A brand-new notebook record before its first update chunk. -/
def freshNotebook (notebookId : String) : NotebookRec :=
  ⟨notebookId, "", "", "", none⟩

/-- Upsert semantics of a `notes` update chunk. -/
def upsertNote (noteId : String) (p : NotePatch) (ns : List NoteRec) : List NoteRec :=
  if ns.any (fun n => n.id == noteId) then
    ns.map (fun n => if n.id = noteId then p.applyTo n else n)
  else
    ns ++ [p.applyTo (freshNote noteId)]

/-- Upsert semantics of a `notebooks` update chunk. -/
def upsertNotebook (notebookId : String) (p : NotebookPatch) (bs : List NotebookRec) :
    List NotebookRec :=
  if bs.any (fun b => b.id == notebookId) then
    bs.map (fun b => if b.id = notebookId then p.applyTo b else b)
  else
    bs ++ [p.applyTo (freshNotebook notebookId)]

/-- Apply an edit to the note with the given id (link/unlink chunks touch
exactly the addressed record). -/
def mapNote (noteId : String) (f : NoteRec → NoteRec) (ns : List NoteRec) : List NoteRec :=
  ns.map (fun n => if n.id = noteId then f n else n)

/-- Effect of one transaction chunk on the dataset. -/
def applyOp (db : DBState) : TxOp → DBState
  | .noteUpdate i p => { db with notes := upsertNote i p db.notes }
  | .noteLinkCreator i u => { db with notes := mapNote i (fun n => { n with creator := some u }) db.notes }
  | .noteLinkNotebook i b => { db with notes := mapNote i (fun n => { n with notebook := some b }) db.notes }
  | .noteLinkTags i ts =>
      { db with notes := mapNote i (fun n => { n with tags := n.tags ++ ts.filter (fun t => !(n.tags.contains t)) }) db.notes }
  | .noteUnlinkTag i t =>
      { db with notes := mapNote i (fun n => { n with tags := n.tags.filter (fun x => x != t) }) db.notes }
  | .notebookUpdate b p => { db with notebooks := upsertNotebook b p db.notebooks }
  | .notebookLinkCreator b u => { db with notebooks := (db.notebooks.map (fun x => if x.id = b then { x with creator := some u } else x)) }
  | .notebookLinkNote b i => { db with notes := mapNote i (fun n => { n with notebook := some b }) db.notes }
  | .notebookUnlinkNote b i =>
      { db with notes := mapNote i (fun n => if n.notebook = some b then { n with notebook := none } else n) db.notes }
  | .notebookDelete b => { db with notebooks := db.notebooks.filter (fun x => x.id != b) }
  | .tagDelete t => { db with tags := db.tags.filter (fun x => x.id != t) }

/-- Effect of one `db.transact(chunks)` call: the chunks apply in order. -/
def applyTransact (db : DBState) (ops : List TxOp) : DBState :=
  ops.foldl applyOp db

/-- Effect of a sequence of `db.transact` calls. -/
def applyCalls (db : DBState) (calls : List (List TxOp)) : DBState :=
  calls.foldl applyTransact db

/-- The echo record `createNote` returns (`as NoteEntity`): the fields it
sets locally, without relation data. -/
structure NoteEcho where
  id : String
  title : String
  content : String
  createdAt : String
  updatedAt : String
  isFavorite : Bool
deriving Repr, DecidableEq

/-- `createNote(title, content, notebookId?, tagIds?)` from
`contexts/NoteContext.tsx`: throws when no user is signed in; otherwise
builds one transaction array (note update + creator link, plus a
notebook link and a tags link when given) and issues one `db.transact`,
returning a locally-constructed echo of the new record.  `noteId` and
`now` stand for the generated `id()` and `new Date().toISOString()`. -/
def createNote (user : Option String) (title content : String)
    (notebookId : Option String) (tagIds : Option (List String))
    (noteId now : String) : Except String (List (List TxOp) × NoteEcho) :=
  match user with
  | none => .error "User not authenticated"
  | some uid =>
    let tx : List TxOp :=
      [.noteUpdate noteId
          { title := some title, content := some content,
            createdAt := some now, updatedAt := some now, isFavorite := some false },
       .noteLinkCreator noteId uid]
    let tx1 : List TxOp :=
      match notebookId with
      | some nb => tx ++ [.notebookLinkNote nb noteId]
      | none => tx
    let tx2 : List TxOp :=
      match tagIds with
      | some ts => if ts.length > 0 then tx1 ++ [.noteLinkTags noteId ts] else tx1
      | none => tx1
    .ok ([tx2], ⟨noteId, title, content, now, now, false⟩)

/-- The `Partial<\x7b title; content; isFavorite \x7d>` argument of
`updateNote`. -/
structure NoteUpdates where
  title : Option String := none
  content : Option String := none
  isFavorite : Option Bool := none
deriving Repr, DecidableEq

/-- The `updatedData` object of `updateNote`: the given fields spread
together with a fresh `updatedAt`. -/
def updatedData (updates : NoteUpdates) (now : String) : NotePatch :=
  { title := updates.title, content := updates.content,
    isFavorite := updates.isFavorite, updatedAt := some now }

/-- `updateNote(id, updates)` from `contexts/NoteContext.tsx`: one
`db.transact` with a single update chunk carrying the given fields plus
a fresh `updatedAt`. -/
def updateNote (noteId : String) (updates : NoteUpdates) (now : String) : List (List TxOp) :=
  [[.noteUpdate noteId (updatedData updates now)]]

/-- `deleteNotebook(id)` from `contexts/NoteContext.tsx`: collects the
notes whose notebook link is `id` from the live `notes` view, builds one
unlink chunk per such note, appends the notebook delete chunk, and
issues the whole array as ONE `db.transact` call. -/
def deleteNotebook (notes : List NoteRec) (nbId : String) : List (List TxOp) :=
  let notesInNotebook := notes.filter (fun note => note.notebook == some nbId)
  let tx := notesInNotebook.map (fun note => TxOp.notebookUnlinkNote nbId note.id)
  [tx ++ [TxOp.notebookDelete nbId]]

/-- `deleteTag(id)` from `contexts/NoteContext.tsx`: collects the notes
carrying the tag, builds one unlink chunk per such note, appends the tag
delete chunk, and issues the whole array as one `db.transact` call. -/
def deleteTag (notes : List NoteRec) (tagId : String) : List (List TxOp) :=
  let notesWithTag := notes.filter (fun note => note.tags.contains tagId)
  let tx := notesWithTag.map (fun note => TxOp.noteUnlinkTag note.id tagId)
  [tx ++ [TxOp.tagDelete tagId]]

/-- `removeTagFromNote(noteId, tagId)`: a single unlink call. -/
def removeTagFromNote (noteId tagId : String) : List (List TxOp) :=
  [[.noteUnlinkTag noteId tagId]]

/-- `addTagToNote(noteId, tagId)`: a single link call. -/
def addTagToNote (noteId tagId : String) : List (List TxOp) :=
  [[.noteLinkTags noteId [tagId]]]

/-- `moveNoteToNotebook(noteId, notebookId)` from
`contexts/NoteContext.tsx`: looks the note up in the live view; when it
has a current notebook, first awaits a `db.transact` unlinking it, then
awaits a second `db.transact` linking the new notebook; otherwise only
the link call is issued. -/
def moveNoteToNotebook (notes : List NoteRec) (noteId notebookId : String) :
    List (List TxOp) :=
  match notes.find? (fun n => n.id == noteId) with
  | some note =>
    match note.notebook with
    | some oldNb =>
        [[TxOp.notebookUnlinkNote oldNb noteId], [TxOp.notebookLinkNote notebookId noteId]]
    | none => [[TxOp.notebookLinkNote notebookId noteId]]
  | none => [[TxOp.notebookLinkNote notebookId noteId]]

/-! ### Auth controller (`contexts/AuthContext.tsx`) -/

/-- The auth-relevant client state: the email recorded as pending
verification (`sentEmail`) and the ambient identity reported by
`db.useAuth()` (`user`, by id). -/
structure AuthState where
  sentEmail : Option String
  user : Option String
deriving Repr, DecidableEq

/-- `verifyCode(email, code)`: awaits `db.auth.signInWithMagicCode`;
`remote` is that call's outcome (on success the SDK installs the session,
so `db.useAuth` reports the identity `uid`).  On success the pending
email is cleared; on failure the error is logged and re-thrown and no
state is touched. -/
def verifyCode (st : AuthState) (remote : Except String String) :
    AuthState × Except String Unit :=
  match remote with
  | .ok uid => ({ st with sentEmail := none, user := some uid }, .ok ())
  | .error e => (st, .error e)

/-- The redirect effect of `AuthProvider`: when loading is done, no user
is present, no email is pending and the route is not already `/login`,
`router.push('/login')` runs; the result is the route after the effect. -/
def redirectEffect (isLoading : Bool) (user : Option String)
    (sentEmail : Option String) (pathname : String) : String :=
  if !isLoading && user.isNone && sentEmail.isNone && pathname != "/login" then
    "/login"
  else
    pathname

/-! ### Onboarding seeder (`lib/onboarding.ts`) -/

/-- The five fixed welcome notes (title, content) of
`seedUserWithOnboardingNotes`. -/
def welcomeNotes : List (String × String) :=
  [("👋 Welcome to Evernote Clone!",
    "Welcome to your new Evernote Clone!\n\nThis application provides a simple and effective way to capture and organize your thoughts, ideas, and information.\n\nHere are a few things you can do:\n- Create and edit notes\n- Organize notes into notebooks\n- Tag notes for easy searching\n- Favorite important notes\n\nFeel free to delete these notes or keep them for reference. Let's get started!"),
   ("📝 Creating and Editing Notes",
    "# Creating Notes\n\nTo create a new note, click the \"New Note\" button in the note list panel.\n\n# Editing Notes\n\nNotes are automatically saved as you type. You can edit:\n- The title of the note\n- The content of the note\n\n# Formatting (Future Enhancement)\nWe're working on adding rich text formatting in a future update. For now, your notes are saved as plain text.\n\n# Deleting Notes\nTo delete a note, click the trash icon in the top-right corner of the note editor. Be careful, as this action cannot be undone."),
   ("📚 Using Notebooks",
    "Notebooks help you organize your notes by topic, project, or category.\n\n# Creating Notebooks\n1. Click the + icon next to \"Notebooks\" in the sidebar\n2. Enter a name for your notebook\n3. Click \"Add\"\n\n# Moving Notes to Notebooks\n1. Open the note you want to move\n2. Click on the notebook name in the toolbar (or \"No Notebook\" if it's not in a notebook yet)\n3. Select the destination notebook from the dropdown\n\n# Organizing Tips\n- Use notebooks for broad categories (Work, Personal, Projects)\n- Use tags for more specific labeling within notebooks"),
   ("🏷️ Using Tags",
    "Tags provide a flexible way to categorize your notes across notebooks.\n\n# Adding Tags\n1. Open the note you want to tag\n2. Click \"Add Tags\" in the toolbar\n3. Select existing tags or create new ones\n\n# Creating New Tags\n1. Click the + icon next to \"Tags\" in the sidebar\n2. Enter a name for your tag\n3. Click \"Add\"\n\n# Finding Tagged Notes\nClick on any tag in the sidebar to see all notes with that tag.\n\n# Tag Tips\n- Use tags for cross-notebook organization\n- Add multiple tags to notes for more flexible organization\n- Tags are especially useful for project-specific content that spans multiple notebooks"),
   ("⭐ Tips and Tricks",
    "# Favorites\nMark important notes as favorites by clicking the star icon in the toolbar.\n\n# Search\nUse the search bar to quickly find notes by title or content.\n\n# Automatic Saving\nYour notes are automatically saved as you type, so you never have to worry about losing your work.\n\n# Keyboard Shortcuts (Coming Soon)\nWe're working on adding keyboard shortcuts to make navigation and note creation even faster.\n\n# Feedback\nWe're constantly improving the app. If you have suggestions or find bugs, please let us know!\n\nThanks for using Evernote Clone!")]

/-- First `db.transact` of the seeder: create the "Getting Started"
notebook and link its creator. -/
def onboardingNotebookTx (uid nbId now : String) : List TxOp :=
  [.notebookUpdate nbId
      { name := some "Getting Started",
        description := some "Introduction to the Evernote Clone",
        createdAt := some now },
   .notebookLinkCreator nbId uid]

/-- The chunk for one welcome note: update (with `isFavorite` true only
at index 0) plus a link to both creator and the new notebook. -/
def onboardingNoteTx (uid nbId now noteId : String) (index : Nat)
    (note : String × String) : List TxOp :=
  [.noteUpdate noteId
      { title := some note.1, content := some note.2,
        createdAt := some now, updatedAt := some now,
        isFavorite := some (index == 0) },
   .noteLinkCreator noteId uid,
   .noteLinkNotebook noteId nbId]

/-- Second `db.transact` of the seeder: the chunks for the five welcome
notes in order (one generated id per note). -/
def onboardingNotesTx (uid nbId now : String) :
    List String → List (String × String) → Nat → List TxOp
  | noteId :: ids, note :: rest, index =>
      onboardingNoteTx uid nbId now noteId index note ++
        onboardingNotesTx uid nbId now ids rest (index + 1)
  | _, _, _ => []

/-- The two `db.transact` calls the seeder's try-block issues, in order. -/
def seedUserCalls (uid nbId now : String) (noteIds : List String) : List (List TxOp) :=
  [onboardingNotebookTx uid nbId now, onboardingNotesTx uid nbId now noteIds welcomeNotes 0]

/-- The `user` argument of the seeder (`User` of `types/index.ts`); an
absent identifier is modelled as the empty string, which is falsy in
`!user.id`. -/
structure SeedUser where
  id : String
  email : String
deriving Repr, DecidableEq

/-- What the seeder's caller observes: the `db.transact` calls actually
issued, the error logged to the console (if any), and the error thrown
to the caller (if any). -/
structure SeedReturn where
  issued : List (List TxOp)
  loggedError : Option String
  thrown : Option String
deriving Repr, DecidableEq

/-- Issue the calls in order; `failAt` injects a remote rejection at the
given call index (the failing call counts as issued). -/
def runTransacts (calls : List (List TxOp)) (failAt : Option Nat) :
    List (List TxOp) × Except String Unit :=
  match failAt with
  | none => (calls, .ok ())
  | some k =>
      if k < calls.length then (calls.take (k + 1), .error "transact failed")
      else (calls, .ok ())

/-- `seedUserWithOnboardingNotes(user)` from `lib/onboarding.ts`: returns
early (no writes) when `user` is missing or has a falsy id; otherwise
runs the two transacts inside `try … catch`, where the catch only logs
the error and never re-throws. -/
def seedUserWithOnboardingNotes (user : Option SeedUser) (nbId now : String)
    (noteIds : List String) (failAt : Option Nat) : SeedReturn :=
  match user with
  | none =>
      { issued := [], loggedError := some "Cannot seed notes: User is undefined or missing ID",
        thrown := none }
  | some u =>
      if u.id = "" then
        { issued := [], loggedError := some "Cannot seed notes: User is undefined or missing ID",
          thrown := none }
      else
        match runTransacts (seedUserCalls u.id nbId now noteIds) failAt with
        | (calls, .ok _) => { issued := calls, loggedError := none, thrown := none }
        | (calls, .error e) =>
            { issued := calls, loggedError := some e, thrown := none }

/-! ### Helper lemmas -/

/-- Mapping a function that fixes every member of a list is the identity. -/
theorem map_eq_self_of_mem {α : Type} {l : List α} {f : α → α}
    (h : ∀ a ∈ l, f a = a) : l.map f = l := by
  calc l.map f = l.map id := List.map_congr_left h
  _ = l := List.map_id l

/-! ### Claim theorems -/

/-- C3: a successful `createNote` returns an echo whose title and content
equal the inputs, with `isFavorite` false and the creation timestamp equal
to the update timestamp. -/
theorem createNote_echo_matches_inputs (uid title content : String)
    (notebookId : Option String) (tagIds : Option (List String)) (noteId now : String) :
    ∃ calls echo,
      createNote (some uid) title content notebookId tagIds noteId now = .ok (calls, echo)
        ∧ echo.title = title ∧ echo.content = content
        ∧ echo.isFavorite = false ∧ echo.createdAt = echo.updatedAt :=
  ⟨_, _, rfl, rfl, rfl, rfl, rfl⟩

/-- C4: `moveNoteToNotebook` issues the old-notebook unlink and the new
link as two sequential transact calls when the note currently has a
notebook, and only the single link call (no unlink anywhere) when the
note has no current notebook or is not found. -/
theorem moveNoteToNotebook_call_shape (notes : List NoteRec) (noteId notebookId : String) :
    (∀ note, notes.find? (fun n => n.id == noteId) = some note →
      (∀ oldNb, note.notebook = some oldNb →
        moveNoteToNotebook notes noteId notebookId
          = [[TxOp.notebookUnlinkNote oldNb noteId], [TxOp.notebookLinkNote notebookId noteId]])
      ∧ (note.notebook = none →
        moveNoteToNotebook notes noteId notebookId
          = [[TxOp.notebookLinkNote notebookId noteId]]))
    ∧ (notes.find? (fun n => n.id == noteId) = none →
        moveNoteToNotebook notes noteId notebookId
          = [[TxOp.notebookLinkNote notebookId noteId]]) := by
  refine ⟨fun note hfind => ⟨fun oldNb hnb => ?_, fun hnb => ?_⟩, fun hfind => ?_⟩
  · simp [moveNoteToNotebook, hfind, hnb]
  · simp [moveNoteToNotebook, hfind, hnb]
  · simp [moveNoteToNotebook, hfind]

/-- Witness for C4: a note in notebook `b1` moves with two calls, a note
with no notebook moves with one link call. -/
theorem moveNoteToNotebook_call_shape_witness :
    moveNoteToNotebook [⟨"n1", "t", "c", "d0", "d0", false, some "u", some "b1", []⟩] "n1" "b2"
        = [[TxOp.notebookUnlinkNote "b1" "n1"], [TxOp.notebookLinkNote "b2" "n1"]]
    ∧ moveNoteToNotebook [⟨"n1", "t", "c", "d0", "d0", false, some "u", none, []⟩] "n1" "b2"
        = [[TxOp.notebookLinkNote "b2" "n1"]] :=
  ⟨((moveNoteToNotebook_call_shape
      [⟨"n1", "t", "c", "d0", "d0", false, some "u", some "b1", []⟩] "n1" "b2").1
      ⟨"n1", "t", "c", "d0", "d0", false, some "u", some "b1", []⟩ (by decide)).1 "b1" rfl,
   ((moveNoteToNotebook_call_shape
      [⟨"n1", "t", "c", "d0", "d0", false, some "u", none, []⟩] "n1" "b2").1
      ⟨"n1", "t", "c", "d0", "d0", false, some "u", none, []⟩ (by decide)).2 rfl⟩

/-- C6: on success `verifyCode` clears the pending email and the ambient
identity becomes non-null; on failure the remote error is re-thrown and
the state, pending email included, is unchanged. -/
theorem verifyCode_success_failure (st : AuthState) (remote : Except String String) :
    (∀ uid, remote = .ok uid →
      (verifyCode st remote).1.sentEmail = none
        ∧ (verifyCode st remote).1.user ≠ none
        ∧ (verifyCode st remote).2 = .ok ())
    ∧ (∀ e, remote = .error e → verifyCode st remote = (st, .error e)) := by
  refine ⟨fun uid h => ?_, fun e h => ?_⟩
  · subst h; simp [verifyCode]
  · subst h; simp [verifyCode]

/-- Witness for C6: a concrete success clears the pending email and sets
the identity, a concrete failure re-throws and keeps the state. -/
theorem verifyCode_success_failure_witness :
    ((verifyCode ⟨some "alice@example.com", none⟩ (.ok "u1")).1.sentEmail = none
      ∧ (verifyCode ⟨some "alice@example.com", none⟩ (.ok "u1")).1.user ≠ none)
    ∧ verifyCode ⟨some "alice@example.com", none⟩ (.error "bad code")
        = (⟨some "alice@example.com", none⟩, .error "bad code") :=
  ⟨⟨((verifyCode_success_failure ⟨some "alice@example.com", none⟩ (.ok "u1")).1 "u1" rfl).1,
    ((verifyCode_success_failure ⟨some "alice@example.com", none⟩ (.ok "u1")).1 "u1" rfl).2.1⟩,
   (verifyCode_success_failure ⟨some "alice@example.com", none⟩ (.error "bad code")).2
      "bad code" rfl⟩

/-- C9: whenever loading has completed, no identity is present and no
email is pending verification, the route after the auth controller's
redirect effect is the login screen. -/
theorem redirect_forces_login (pathname : String) :
    redirectEffect false none none pathname = "/login" := by
  by_cases h : pathname = "/login"
  · simp [redirectEffect, h]
  · simp [redirectEffect, h]

/-- C10: the onboarding seeder returns normally on every input (any
internal failure is caught and only logged), and a missing user or a
missing identifier issues no remote writes at all. -/
theorem seedUser_never_throws (user : Option SeedUser) (nbId now : String)
    (noteIds : List String) (failAt : Option Nat) :
    (seedUserWithOnboardingNotes user nbId now noteIds failAt).thrown = none
    ∧ (user = none → (seedUserWithOnboardingNotes user nbId now noteIds failAt).issued = [])
    ∧ (∀ u, user = some u → u.id = "" →
        (seedUserWithOnboardingNotes user nbId now noteIds failAt).issued = []) := by
  refine ⟨?_, ?_, ?_⟩
  · cases user with
    | none => rfl
    | some u =>
      by_cases h : u.id = ""
      · simp [seedUserWithOnboardingNotes, h]
      · simp only [seedUserWithOnboardingNotes]
        rw [if_neg h]
        rcases hr : runTransacts (seedUserCalls u.id nbId now noteIds) failAt with ⟨calls, r⟩
        cases r <;> rfl
  · intro h; subst h; rfl
  · intro u h hid; subst h
    simp [seedUserWithOnboardingNotes, hid]

/-- Witness for C10: a missing user returns normally, and a user with an
empty identifier issues no writes. -/
theorem seedUser_never_throws_witness :
    (seedUserWithOnboardingNotes none "nb" "d0" ["a", "b", "c", "d", "e"] none).thrown = none
    ∧ (seedUserWithOnboardingNotes (some ⟨"", "x@y.z"⟩) "nb" "d0" [] (some 0)).issued = [] :=
  ⟨(seedUser_never_throws none "nb" "d0" ["a", "b", "c", "d", "e"] none).1,
   (seedUser_never_throws (some ⟨"", "x@y.z"⟩) "nb" "d0" [] (some 0)).2.2
      ⟨"", "x@y.z"⟩ rfl rfl⟩

/-- C8: removing a tag that is not attached to the note issues its single
unlink call and leaves the dataset unchanged (no error, a no-op). -/
theorem removeTagFromNote_unattached_noop (db : DBState) (noteId tagId : String)
    (h : ∀ n ∈ db.notes, n.id = noteId → tagId ∉ n.tags) :
    removeTagFromNote noteId tagId = [[TxOp.noteUnlinkTag noteId tagId]]
    ∧ applyCalls db (removeTagFromNote noteId tagId) = db := by
  refine ⟨rfl, ?_⟩
  show applyOp db (.noteUnlinkTag noteId tagId) = db
  cases db with
  | mk ns bs tgs =>
    simp only [applyOp, mapNote]
    congr 1
    apply map_eq_self_of_mem
    intro n hn
    by_cases hid : n.id = noteId
    · rw [if_pos hid]
      have htags : ∀ a ∈ n.tags, (a != tagId) = true := by
        intro a ha
        have hne : a ≠ tagId := fun heq => (h n hn hid) (heq ▸ ha)
        simpa using hne
      rw [List.filter_eq_self.mpr htags]
    · rw [if_neg hid]

/-- Witness for C8: removing tag `t2`, not attached to the only note,
changes nothing. -/
theorem removeTagFromNote_unattached_noop_witness :
    applyCalls ⟨[⟨"n1", "t", "c", "d0", "d0", false, some "u", none, ["t1"]⟩], [], []⟩
        (removeTagFromNote "n1" "t2")
      = ⟨[⟨"n1", "t", "c", "d0", "d0", false, some "u", none, ["t1"]⟩], [], []⟩ :=
  (removeTagFromNote_unattached_noop
    ⟨[⟨"n1", "t", "c", "d0", "d0", false, some "u", none, ["t1"]⟩], [], []⟩
    "n1" "t2" (by decide)).2

/-- Folding the per-note notebook-unlink chunks over the dataset clears
the notebook reference of exactly the targeted notes that point at it. -/
theorem applyTransact_unlinkNotebook (nbId : String) (ts : List String) (db : DBState) :
    applyTransact db (ts.map (fun t => TxOp.notebookUnlinkNote nbId t))
      = { db with notes := db.notes.map (fun n =>
            if n.id ∈ ts ∧ n.notebook = some nbId then { n with notebook := none } else n) } := by
  induction ts generalizing db with
  | nil =>
    cases db with
    | mk ns bs tgs =>
      simp only [List.map_nil, applyTransact, List.foldl_nil]
      congr 1
      refine (map_eq_self_of_mem fun n _ => ?_).symm
      simp
  | cons t ts ih =>
    rw [List.map_cons,
      show applyTransact db (TxOp.notebookUnlinkNote nbId t :: ts.map (fun x => TxOp.notebookUnlinkNote nbId x))
          = applyTransact (applyOp db (.notebookUnlinkNote nbId t)) (ts.map (fun x => TxOp.notebookUnlinkNote nbId x)) from rfl,
      ih]
    cases db with
    | mk ns bs tgs =>
      simp only [applyOp, mapNote]
      congr 1
      rw [List.map_map]
      apply List.map_congr_left
      intro n _
      by_cases h1 : n.id = t
      · by_cases h2 : n.notebook = some nbId
        · simp [Function.comp, h1, h2]
        · simp [Function.comp, h1, h2]
      · by_cases h3 : n.id ∈ ts
        · simp [Function.comp, h1, h3]
        · have : ¬(n.id ∈ t :: ts) := by simp [h1, h3]
          simp [Function.comp, h1, h3, this]

/-- C1 (amended): `deleteNotebook` issues ONE transact call whose chunks
are the per-note unlink chunks followed by the notebook delete chunk;
after it applies, no note references the notebook and the notebook
record is gone. -/
theorem deleteNotebook_unlinks_then_deletes (db : DBState) (nbId : String) :
    (deleteNotebook db.notes nbId).length = 1
    ∧ (∃ unlinks, deleteNotebook db.notes nbId = [unlinks ++ [TxOp.notebookDelete nbId]]
        ∧ ∀ op ∈ unlinks, ∃ nid, op = TxOp.notebookUnlinkNote nbId nid)
    ∧ (∀ n ∈ (applyCalls db (deleteNotebook db.notes nbId)).notes, n.notebook ≠ some nbId)
    ∧ (∀ b ∈ (applyCalls db (deleteNotebook db.notes nbId)).notebooks, b.id ≠ nbId) := by
  have hcalls : deleteNotebook db.notes nbId
      = [((db.notes.filter (fun note => note.notebook == some nbId)).map (fun note => note.id)).map
            (fun t => TxOp.notebookUnlinkNote nbId t)
          ++ [TxOp.notebookDelete nbId]] := by
    simp [deleteNotebook, List.map_map, Function.comp]
  have hstate : applyCalls db (deleteNotebook db.notes nbId)
      = applyOp (applyTransact db
          (((db.notes.filter (fun note => note.notebook == some nbId)).map (fun note => note.id)).map
            (fun t => TxOp.notebookUnlinkNote nbId t)))
          (.notebookDelete nbId) := by
    rw [hcalls]
    show applyTransact db _ = _
    rw [applyTransact, List.foldl_append]
    rfl
  rw [applyTransact_unlinkNotebook] at hstate
  refine ⟨by rw [hcalls]; rfl, ⟨_, hcalls, ?_⟩, ?_, ?_⟩
  · intro op hop
    rcases List.mem_map.mp hop with ⟨t, _, rfl⟩
    exact ⟨t, rfl⟩
  · intro n hn
    rw [hstate] at hn
    simp only [applyOp] at hn
    rcases List.mem_map.mp hn with ⟨m, hm, rfl⟩
    by_cases h2 : m.notebook = some nbId
    · have hmem : m.id ∈ (db.notes.filter (fun note => note.notebook == some nbId)).map
          (fun note => note.id) :=
        List.mem_map.mpr ⟨m, List.mem_filter.mpr ⟨hm, by simp [h2]⟩, rfl⟩
      rw [if_pos ⟨hmem, h2⟩]
      simp
    · rw [if_neg (fun hc => h2 hc.2)]
      exact h2
  · intro b hb
    rw [hstate] at hb
    simp only [applyOp] at hb
    have := (List.mem_filter.mp hb).2
    simpa using this

/-- Counterexample for C1 as stated: with one note linked to notebook
`b1`, `deleteNotebook` puts the unlink chunk and the delete chunk into
one and the same transact call — not two separate calls. -/
theorem deleteNotebook_single_call_counterexample :
    deleteNotebook [⟨"n1", "t", "c", "d0", "d0", false, some "u", some "b1", []⟩] "b1"
        = [[TxOp.notebookUnlinkNote "b1" "n1", TxOp.notebookDelete "b1"]]
    ∧ ¬(2 ≤ (deleteNotebook [⟨"n1", "t", "c", "d0", "d0", false, some "u", some "b1", []⟩]
          "b1").length) := by
  refine ⟨rfl, by decide⟩

/-- Folding the per-note tag-unlink chunks over the dataset removes the
tag from exactly the targeted notes. -/
theorem applyTransact_unlinkTag (tagId : String) (ts : List String) (db : DBState) :
    applyTransact db (ts.map (fun i => TxOp.noteUnlinkTag i tagId))
      = { db with notes := db.notes.map (fun n =>
            if n.id ∈ ts then { n with tags := n.tags.filter (fun x => x != tagId) }
            else n) } := by
  induction ts generalizing db with
  | nil =>
    cases db with
    | mk ns bs tgs =>
      simp only [List.map_nil, applyTransact, List.foldl_nil]
      congr 1
      refine (map_eq_self_of_mem fun n _ => ?_).symm
      simp
  | cons t ts ih =>
    rw [List.map_cons,
      show applyTransact db (TxOp.noteUnlinkTag t tagId :: ts.map (fun x => TxOp.noteUnlinkTag x tagId))
          = applyTransact (applyOp db (.noteUnlinkTag t tagId)) (ts.map (fun x => TxOp.noteUnlinkTag x tagId)) from rfl,
      ih]
    cases db with
    | mk ns bs tgs =>
      simp only [applyOp, mapNote]
      congr 1
      rw [List.map_map]
      apply List.map_congr_left
      intro n _
      by_cases h1 : n.id = t
      · by_cases h3 : n.id ∈ ts
        · simp [Function.comp, h1, h3, List.filter_filter]
        · simp [Function.comp, h1, h3]
      · by_cases h3 : n.id ∈ ts
        · simp [Function.comp, h1, h3]
        · have hcons : ¬(n.id ∈ t :: ts) := by simp [h1, h3]
          simp [Function.comp, h1, h3, hcons]

/-- C5: `deleteTag` puts, ahead of the tag-delete chunk of its single
transact call, one unlink chunk per note carrying the tag; afterwards no
note includes the tag and the tag record is gone. -/
theorem deleteTag_unlinks_every_note (db : DBState) (tagId : String) :
    (∃ unlinks, deleteTag db.notes tagId = [unlinks ++ [TxOp.tagDelete tagId]]
        ∧ ∀ op ∈ unlinks, ∃ nid, op = TxOp.noteUnlinkTag nid tagId)
    ∧ (∀ n ∈ (applyCalls db (deleteTag db.notes tagId)).notes, tagId ∉ n.tags)
    ∧ (∀ t ∈ (applyCalls db (deleteTag db.notes tagId)).tags, t.id ≠ tagId) := by
  have hcalls : deleteTag db.notes tagId
      = [((db.notes.filter (fun note => note.tags.contains tagId)).map (fun note => note.id)).map
            (fun i => TxOp.noteUnlinkTag i tagId)
          ++ [TxOp.tagDelete tagId]] := by
    simp [deleteTag, List.map_map, Function.comp]
  have hstate : applyCalls db (deleteTag db.notes tagId)
      = applyOp (applyTransact db
          (((db.notes.filter (fun note => note.tags.contains tagId)).map (fun note => note.id)).map
            (fun i => TxOp.noteUnlinkTag i tagId)))
          (.tagDelete tagId) := by
    rw [hcalls]
    show applyTransact db _ = _
    rw [applyTransact, List.foldl_append]
    rfl
  rw [applyTransact_unlinkTag] at hstate
  refine ⟨⟨_, hcalls, ?_⟩, ?_, ?_⟩
  · intro op hop
    rcases List.mem_map.mp hop with ⟨i, _, rfl⟩
    exact ⟨i, rfl⟩
  · intro n hn
    rw [hstate] at hn
    simp only [applyOp] at hn
    rcases List.mem_map.mp hn with ⟨m, hm, rfl⟩
    by_cases hc : m.id ∈ (db.notes.filter (fun note => note.tags.contains tagId)).map
        (fun note => note.id)
    · rw [if_pos hc]
      intro hmem
      have := (List.mem_filter.mp hmem).2
      simp at this
    · rw [if_neg hc]
      intro hmem
      exact hc (List.mem_map.mpr
        ⟨m, List.mem_filter.mpr ⟨hm, by simpa using hmem⟩, rfl⟩)
  · intro t ht
    rw [hstate] at ht
    simp only [applyOp] at ht
    have := (List.mem_filter.mp ht).2
    simpa using this

/-- C7: `updateNote` leaves the notebook and tag collections untouched,
rewrites only the addressed note, and on that note patches exactly the
supplied fields plus `updatedAt`, keeping `createdAt`, the links and
every unsupplied field. -/
theorem updateNote_patches_only_given_fields (db : DBState) (noteId : String)
    (upd : NoteUpdates) (now : String) (h : ∃ n ∈ db.notes, n.id = noteId) :
    (applyCalls db (updateNote noteId upd now)).notebooks = db.notebooks
    ∧ (applyCalls db (updateNote noteId upd now)).tags = db.tags
    ∧ (applyCalls db (updateNote noteId upd now)).notes
        = db.notes.map (fun n => if n.id = noteId then (updatedData upd now).applyTo n else n)
    ∧ (∀ n : NoteRec,
        ((updatedData upd now).applyTo n).createdAt = n.createdAt
        ∧ ((updatedData upd now).applyTo n).creator = n.creator
        ∧ ((updatedData upd now).applyTo n).notebook = n.notebook
        ∧ ((updatedData upd now).applyTo n).tags = n.tags
        ∧ ((updatedData upd now).applyTo n).updatedAt = now
        ∧ (upd.title = none → ((updatedData upd now).applyTo n).title = n.title)
        ∧ (upd.content = none → ((updatedData upd now).applyTo n).content = n.content)
        ∧ (upd.isFavorite = none →
            ((updatedData upd now).applyTo n).isFavorite = n.isFavorite)) := by
  have hany : db.notes.any (fun n => n.id == noteId) = true := by
    rcases h with ⟨n, hn, hid⟩
    exact List.any_eq_true.mpr ⟨n, hn, by simp [hid]⟩
  have hrun : applyCalls db (updateNote noteId upd now)
      = { db with notes := db.notes.map (fun n =>
            if n.id = noteId then (updatedData upd now).applyTo n else n) } := by
    show applyOp db (.noteUpdate noteId (updatedData upd now)) = _
    simp only [applyOp, upsertNote, hany, if_true]
  refine ⟨by rw [hrun], by rw [hrun], by rw [hrun], fun n => ?_⟩
  refine ⟨rfl, rfl, rfl, rfl, rfl, fun ht => ?_, fun hc => ?_, fun hf => ?_⟩
  · simp [updatedData, NotePatch.applyTo, ht]
  · simp [updatedData, NotePatch.applyTo, hc]
  · simp [updatedData, NotePatch.applyTo, hf]

/-- Witness for C7: patching only the title of the single note keeps its
content, `createdAt`, favorite flag and links, and refreshes `updatedAt`. -/
theorem updateNote_patches_only_given_fields_witness :
    (applyCalls ⟨[⟨"n1", "t", "c", "d0", "d0", false, some "u", some "b1", ["t1"]⟩], [], []⟩
        (updateNote "n1" ⟨some "t2", none, none⟩ "d1")).notes
      = [⟨"n1", "t2", "c", "d0", "d1", false, some "u", some "b1", ["t1"]⟩] := by
  rw [(updateNote_patches_only_given_fields
        ⟨[⟨"n1", "t", "c", "d0", "d0", false, some "u", some "b1", ["t1"]⟩], [], []⟩
        "n1" ⟨some "t2", none, none⟩ "d1"
        ⟨⟨"n1", "t", "c", "d0", "d0", false, some "u", some "b1", ["t1"]⟩, by simp, rfl⟩).2.2.1]
  rfl

/-- C2: run on a fresh identity (empty dataset), the seeder's two
transacts create exactly one notebook — "Getting Started", linked to the
creator — and exactly the five fixed welcome notes in order, each linked
to the creator and the new notebook, with the favorite flag true on the
first note (the 👋 welcome note) and on no other. -/
theorem onboarding_seeds_one_notebook_five_notes
    (uid nbId now n0 n1 n2 n3 n4 : String)
    (h01 : n0 ≠ n1) (h02 : n0 ≠ n2) (h03 : n0 ≠ n3) (h04 : n0 ≠ n4)
    (h12 : n1 ≠ n2) (h13 : n1 ≠ n3) (h14 : n1 ≠ n4)
    (h23 : n2 ≠ n3) (h24 : n2 ≠ n4) (h34 : n3 ≠ n4) :
    (applyCalls ⟨[], [], []⟩ (seedUserCalls uid nbId now [n0, n1, n2, n3, n4])).notebooks
        = [⟨nbId, "Getting Started", "Introduction to the Evernote Clone", now, some uid⟩]
    ∧ (applyCalls ⟨[], [], []⟩ (seedUserCalls uid nbId now [n0, n1, n2, n3, n4])).notes.length = 5
    ∧ (applyCalls ⟨[], [], []⟩ (seedUserCalls uid nbId now [n0, n1, n2, n3, n4])).notes.map
          (fun n => n.title)
        = welcomeNotes.map (fun p => p.1)
    ∧ (∀ n ∈ (applyCalls ⟨[], [], []⟩ (seedUserCalls uid nbId now [n0, n1, n2, n3, n4])).notes,
        n.creator = some uid ∧ n.notebook = some nbId)
    ∧ (applyCalls ⟨[], [], []⟩ (seedUserCalls uid nbId now [n0, n1, n2, n3, n4])).notes.map
          (fun n => n.isFavorite)
        = [true, false, false, false, false]
    ∧ ((applyCalls ⟨[], [], []⟩ (seedUserCalls uid nbId now [n0, n1, n2, n3, n4])).notes.map
          (fun n => n.title)).head?
        = some "👋 Welcome to Evernote Clone!" := by
  have h10 : n1 ≠ n0 := fun e => h01 e.symm
  have h20 : n2 ≠ n0 := fun e => h02 e.symm
  have h30 : n3 ≠ n0 := fun e => h03 e.symm
  have h40 : n4 ≠ n0 := fun e => h04 e.symm
  have h21 : n2 ≠ n1 := fun e => h12 e.symm
  have h31 : n3 ≠ n1 := fun e => h13 e.symm
  have h41 : n4 ≠ n1 := fun e => h14 e.symm
  have h32 : n3 ≠ n2 := fun e => h23 e.symm
  have h42 : n4 ≠ n2 := fun e => h24 e.symm
  have h43 : n4 ≠ n3 := fun e => h34 e.symm
  refine ⟨?_, ?_, ?_, ?_, ?_, ?_⟩ <;>
    simp [seedUserCalls, onboardingNotebookTx, onboardingNotesTx, onboardingNoteTx,
      welcomeNotes, applyCalls, applyTransact, applyOp, upsertNote, upsertNotebook,
      mapNote, freshNote, freshNotebook, NotePatch.applyTo, NotebookPatch.applyTo,
      h01, h02, h03, h04, h12, h13, h14, h23, h24, h34,
      h10, h20, h30, h40, h21, h31, h41, h32, h42, h43]

/-- Witness for C2: seeding identity `u` with concrete fresh ids yields
the "Getting Started" notebook and the favorite flags true-then-false. -/
theorem onboarding_seeds_one_notebook_five_notes_witness :
    (applyCalls ⟨[], [], []⟩ (seedUserCalls "u" "nb" "d0" ["a", "b", "c", "d", "e"])).notebooks
        = [⟨"nb", "Getting Started", "Introduction to the Evernote Clone", "d0", some "u"⟩]
    ∧ (applyCalls ⟨[], [], []⟩ (seedUserCalls "u" "nb" "d0" ["a", "b", "c", "d", "e"])).notes.map
          (fun n => n.isFavorite)
        = [true, false, false, false, false] :=
  ⟨(onboarding_seeds_one_notebook_five_notes "u" "nb" "d0" "a" "b" "c" "d" "e"
      (by decide) (by decide) (by decide) (by decide) (by decide)
      (by decide) (by decide) (by decide) (by decide) (by decide)).1,
   (onboarding_seeds_one_notebook_five_notes "u" "nb" "d0" "a" "b" "c" "d" "e"
      (by decide) (by decide) (by decide) (by decide) (by decide)
      (by decide) (by decide) (by decide) (by decide) (by decide)).2.2.2.2.1⟩

end EvernoteClone
